import Mathlib

/-! The console printing logic of multiline-logger, `sys_web.js`.

A shallow embedding of the five exported functions of `sys_web.js`
(`js_header`, `js_new_day`, `js_record`, `js_panic`, `js_trace`) together with
the part of the JavaScript platform they rely on:

* values are `JSValue`s (`undefined`, strings, non-negative integer Numbers)
  with ECMAScript's `ToString`;
* every `console.<method>(format, ...args)` call a function makes is recorded
  as a `ConsoleCall`;
* what a call prints is given by `Formatter`, the formatting operation the
  Console Standard (WHATWG, "Formatter(args)" and its summary of formatting
  specifiers) defines for `console.log` and its siblings: the format specifiers
  are `%s %d %i %f %o %O %c`, with no flags, widths or precisions, so `%04d`
  is ordinary text; arguments no specifier consumed are printed after the
  formatted text.
-/

namespace SysWeb

/-! ## JavaScript values -/

/-- Values the functions receive and pass on: `undefined`, a string, or a Number
holding a non-negative integer (dates, clock fields, line numbers, levels, thread ids).
A Number holds every integer below `2 ^ 53` exactly; that is the range `num` stands for. -/
inductive JSValue where
  | undefined
  | str (s : String)
  | num (n : Nat)
deriving DecidableEq

/-- ECMAScript `ToString`: `undefined` becomes the text "undefined", an integer Number
below `2 ^ 53` its decimal digits. From `2 ^ 53` up the platform conversion rounds to
the shortest digits that identify the Number and, from `1e21`, writes an exponent; that
range is not modelled, so the digits given here are the platform's below `2 ^ 53`
only. -/
def toStr : JSValue → String
  | .undefined => "undefined"
  | .str s => s
  | .num n => toString n

/-- An optional string parameter (`string?`): absent is `undefined`. -/
def ofOption : Option String → JSValue
  | none => .undefined
  | some s => .str s

/-! ## Constants of the module -/

/-- Source: `const B = "font-weight:bold;color:"`. -/
def B : String := "font-weight:bold;color:"
/-- Source: `CY = B + "gold"`. -/
def CY : String := B ++ "gold"
/-- Source: `CT = B + "teal"`. -/
def CT : String := B ++ "teal"
/-- Source: `CG = B + "seagreen"`. -/
def CG : String := B ++ "seagreen"
/-- Source: `CV = B + "palevioletred"`. -/
def CV : String := B ++ "palevioletred"
/-- Source: `CF = B + "firebrick"`. -/
def CF : String := B ++ "firebrick"

/-- Source: `const T = ["error", "warn", ..., "Trace"]`, fifteen entries. -/
def T : List String :=
  ["error", "warn", "info", "log", "debug",
   "red", "darkorange", "blue", "green", "deeppink",
   "Error", "Warn", "Info", "Debug", "Trace"]

/-- Array read `T[i]`: the entry, or `undefined` past the end. -/
def T_at (i : Nat) : JSValue :=
  match T[i]? with
  | some s => .str s
  | none => .undefined

/-! ## The console -/

/-- One call `console.<method>(args...)`; `args` starts with the format string. -/
structure ConsoleCall where
  method : String
  args : List JSValue
deriving DecidableEq

/-- Names that are functions on the `console` object. `console[k]` for any other key
is `undefined`, and calling it throws a `TypeError`. -/
def consoleMethods : List String :=
  ["assert", "clear", "count", "countReset", "debug", "dir", "dirxml", "error",
   "group", "groupCollapsed", "groupEnd", "info", "log", "table", "time", "timeEnd",
   "timeLog", "trace", "warn"]

/-- What the console makes of a format string and its arguments, in printing order. -/
inductive Piece where
  /-- a character of the format string, printed as it stands -/
  | lit (c : Char)
  /-- the string conversion of the argument a `%s` consumed -/
  | sub (s : String)
  /-- the argument a `%c` consumed: the style of what follows; prints nothing -/
  | sty (v : JSValue)
  /-- the argument one of `%d %i %f %o %O` consumed, rendered by the console -/
  | conv (spec : Char) (v : JSValue)
  /-- an argument no specifier consumed, printed after the formatted text -/
  | extra (v : JSValue)
deriving DecidableEq

/-- The conversion specifiers of the console other than `%s` and `%c`. -/
def isConvSpec (c : Char) : Bool :=
  c = 'd' || c = 'i' || c = 'f' || c = 'o' || c = 'O'

/-- One left-to-right pass over the format string. A `%` followed by one of
`s d i f o O c` consumes the next argument (if one is left); any other `%` is text.
Substituted text is not scanned again. -/
def format : List Char → List JSValue → List Piece
  | [], args => args.map Piece.extra
  | c :: cs, [] => Piece.lit c :: format cs []
  | [c], a :: rest => Piece.lit c :: format [] (a :: rest)
  | c :: k :: cs, a :: rest =>
    if c = '%' then
      if k = 's' then Piece.sub (toStr a) :: format cs rest
      else if k = 'c' then Piece.sty a :: format cs rest
      else if isConvSpec k then Piece.conv k a :: format cs rest
      else Piece.lit c :: format (k :: cs) (a :: rest)
    else Piece.lit c :: format (k :: cs) (a :: rest)

/-- The console's formatting of a call's argument list: the first argument, when a
string, is the format string for the others. -/
def Formatter : List JSValue → List Piece
  | .str fmt :: rest => format fmt.toList rest
  | args => args.map Piece.extra

/-- The characters one piece puts on the console. `conv` is the console's rendering of
the `%d %i %f %o %O` conversions, which the standard leaves to the console; a left-over
argument is printed after a blank, as consoles do. -/
def Piece.chars (conv : Char → JSValue → String) : Piece → List Char
  | .lit c => [c]
  | .sub s => s.toList
  | .sty _ => []
  | .conv k v => (conv k v).toList
  | .extra v => ' ' :: (toStr v).toList

/-- The text a call prints, style directives removed. -/
def ConsoleCall.text (conv : Char → JSValue → String) (call : ConsoleCall) : String :=
  String.mk ((Formatter call.args).flatMap (Piece.chars conv))

/-! ## The exported functions -/

/-- Source: `js_header(t, y, m, d)`. -/
def js_header (t : String) (y m d : Nat) : List ConsoleCall :=
  [⟨"log", [.str "%c== %s - %04d-%02d-%02d ==", .str CY, .str t, .num y, .num m, .num d]⟩]

/-- Source: `js_new_day(y, m, d)`. -/
def js_new_day (y m d : Nat) : List ConsoleCall :=
  [⟨"log", [.str "%c= %04d-%02d-%02d =", .str CY, .num y, .num m, .num d]⟩]

/-- Source: the location argument of `js_record`, `li ? md + ":" + li : md`. The
concatenation converts `li` with `ToString`, so this is the source's text for line
numbers below `2 ^ 53` (see `toStr`). -/
def location (md : String) (li : Nat) : String :=
  if li ≠ 0 then md ++ ":" ++ toStr (.num li) else md

/-- Source: `js_record(md, th, tx, li, lv, h, m, s, ms)`. The method is `console[T[lv]]`;
when that is not a function (any `lv` above 4) the call throws a `TypeError` and nothing
is printed (`none`). -/
def js_record (md : String) (th : JSValue) (tx : String) (li lv h m s ms : Nat) :
    Option (List ConsoleCall) :=
  if toStr (T_at lv) ∈ consoleMethods then
    some [⟨toStr (T_at lv),
      [.str "%c%s %c%02d:%02d:%02d.%03d %c%s %c%s\n%c%s",
       .str (B ++ toStr (T_at (lv + 5))), T_at (lv + 10), .str CT,
       .num h, .num m, .num s, .num ms, .str CG, .str (location md li),
       .str CV, th, .str "", .str tx]⟩]
  else none

/-- Source: `js_panic(tt, th, tx, lc, tr)`; `tr` is the optional trace. -/
def js_panic (tt : String) (th : JSValue) (tx lc : String) (tr : Option String) :
    List ConsoleCall :=
  [⟨"error",
    [.str "%c== %s - %c%s%c Panic ==\n%c%s\n%c→ %s%c%s",
     .str CF, .str tt, .str CV, th, .str CF, .str "", .str tx, .str CG, .str lc,
     .str "", ofOption tr]⟩]

/-- Source: `js_trace()`, with `new Error().stack` as the argument: `none` when the
runtime has no `stack` property. The test `stack ? ... : ""` is JavaScript truthiness,
so the empty string counts as no stack. -/
def js_trace (stack : Option String) : String :=
  match stack with
  | none => ""
  | some s => if s ≠ "" then "\nBACKTRACE:\n" ++ s else ""

/-! ## Placeholders of a format string, read printf-style -/

/-- A placeholder in the printf reading of a format string: `%c` (style), `%s` (text)
or `%0Nd` (integer, zero-padded to width `N`). -/
inductive Placeholder where
  | style
  | text
  | padded (width : Nat)
deriving DecidableEq

/-- The placeholders of a format string in that reading, in order of appearance. -/
def placeholders : List Char → List Placeholder
  | [] => []
  | '%' :: 'c' :: cs => Placeholder.style :: placeholders cs
  | '%' :: 's' :: cs => Placeholder.text :: placeholders cs
  | '%' :: '0' :: w :: 'd' :: cs =>
    if w.isDigit then Placeholder.padded (w.toNat - '0'.toNat) :: placeholders cs
    else placeholders cs
  | _ :: cs => placeholders cs

/-- The style directive strings of the module: the empty reset style, the five style
constants and the five label styles `B + colour`. -/
def styleDirectives : List String :=
  ["", CY, CT, CG, CV, CF] ++ ((T.drop 5).take 5).map (B ++ ·)

/-- Whether an argument is of the kind a placeholder stands for: a style directive
string for `%c`, a number for `%0Nd`; `%s` takes the value of its position as it is. -/
def Placeholder.fits : Placeholder → JSValue → Bool
  | .style, .str s => decide (s ∈ styleDirectives)
  | .style, _ => false
  | .text, _ => true
  | .padded _, .num _ => true
  | .padded _, _ => false

/-! ## Shared lemmas -/

theorem T_length : T.length = 15 := rfl

/-! ## Level table (C1) -/

/-- C1: for every level `lv` in 0..4, `js_record` calls the console method named
`T[lv]`, the first `%c` of its format string receives the style
`"font-weight:bold;color:"` followed by the colour `T[lv+5]`, and the `%s` after it
prints the label `T[lv+10]`; the triples are (error, red, Error), (warn, darkorange,
Warn), (info, blue, Info), (log, green, Debug), (debug, deeppink, Trace), and the three
lookups are inside the 15-entry table. -/
theorem js_record_level_table (md : String) (th : JSValue) (tx : String)
    (li lv h m s ms : Nat) (hlv : lv < 5) :
    ∃ method colour label call,
      T[lv]? = some method ∧ T[lv + 5]? = some colour ∧ T[lv + 10]? = some label ∧
      lv + 10 < T.length ∧ T.length = 15 ∧
      (lv, method, colour, label) ∈
        [(0, "error", "red", "Error"), (1, "warn", "darkorange", "Warn"),
         (2, "info", "blue", "Info"), (3, "log", "green", "Debug"),
         (4, "debug", "deeppink", "Trace")] ∧
      js_record md th tx li lv h m s ms = some [call] ∧
      call.method = method ∧
      call.args[1]? = some (.str ("font-weight:bold;color:" ++ colour)) ∧
      call.args[2]? = some (.str label) ∧
      (Formatter call.args).take 2 =
        [Piece.sty (.str ("font-weight:bold;color:" ++ colour)), Piece.sub label] := by
  have h15 : lv + 10 < T.length := by rw [T_length]; omega
  interval_cases lv
  · exact ⟨"error", "red", "Error", _, rfl, rfl, rfl, h15, rfl, by simp, rfl, rfl, rfl, rfl, rfl⟩
  · exact ⟨"warn", "darkorange", "Warn", _, rfl, rfl, rfl, h15, rfl, by simp, rfl, rfl, rfl,
      rfl, rfl⟩
  · exact ⟨"info", "blue", "Info", _, rfl, rfl, rfl, h15, rfl, by simp, rfl, rfl, rfl, rfl, rfl⟩
  · exact ⟨"log", "green", "Debug", _, rfl, rfl, rfl, h15, rfl, by simp, rfl, rfl, rfl, rfl, rfl⟩
  · exact ⟨"debug", "deeppink", "Trace", _, rfl, rfl, rfl, h15, rfl, by simp, rfl, rfl, rfl,
      rfl, rfl⟩

/-- Witness for C1 at level 3 (method `log`, colour green, label Debug). -/
theorem js_record_level_table_witness :
    (3 : Nat) < 5 ∧
    ∃ method colour label call,
      T[3]? = some method ∧ T[3 + 5]? = some colour ∧ T[3 + 10]? = some label ∧
      3 + 10 < T.length ∧ T.length = 15 ∧
      (3, method, colour, label) ∈
        [(0, "error", "red", "Error"), (1, "warn", "darkorange", "Warn"),
         (2, "info", "blue", "Info"), (3, "log", "green", "Debug"),
         (4, "debug", "deeppink", "Trace")] ∧
      js_record "main.rs" (.str "T1") "hello" 42 3 5 3 9 7 = some [call] ∧
      call.method = method ∧
      call.args[1]? = some (.str ("font-weight:bold;color:" ++ colour)) ∧
      call.args[2]? = some (.str label) ∧
      (Formatter call.args).take 2 =
        [Piece.sty (.str ("font-weight:bold;color:" ++ colour)), Piece.sub label] :=
  ⟨by decide, js_record_level_table "main.rs" (.str "T1") "hello" 42 3 5 3 9 7 (by decide)⟩

/-! ## Panic banner (C2, C8) -/

/-- C2: with the trace argument absent (`undefined`), the last `%s` of the banner is
handed `undefined` and prints its string conversion: for every title, thread id, text
and location the printed text ends with the location followed by `undefined`, not with
the location. At `js_panic("Title", "T1", "boom", "file.js:10", undefined)` the console
prints `→ file.js:10undefined` as the last line. -/
theorem js_panic_absent_trace_prints_undefined (conv : Char → JSValue → String) :
    (∀ (tt : String) (th : JSValue) (tx lc : String),
      (js_panic tt th tx lc none).map (ConsoleCall.text conv) =
        ["== " ++ tt ++ " - " ++ toStr th ++ " Panic ==\n" ++ tx ++ "\n→ " ++ lc
          ++ "undefined"]) ∧
    (js_panic "Title" (.str "T1") "boom" "file.js:10" none).map (ConsoleCall.text conv) =
      ["== Title - T1 Panic ==\nboom\n→ file.js:10undefined"] := by
  refine ⟨?_, rfl⟩
  intro tt th tx lc
  simp only [js_panic, ConsoleCall.text, Formatter, List.map_cons, List.map_nil,
    List.cons.injEq, and_true]
  apply String.ext
  simp [format, Piece.chars, isConvSpec, ofOption, toStr]

/-- C8: for every title, thread id, text, location and present trace string `tr`,
`js_panic` makes exactly one console call, to the `error` method (also when the trace
is absent), and the text it prints, style directives removed, is
`== {title} - {threadId} Panic ==`, a newline, the text, a newline, and `→ {location}`
immediately followed by `tr` as it stands. -/
theorem js_panic_banner (conv : Char → JSValue → String) (tt : String) (th : JSValue)
    (tx lc tr : String) :
    (∀ otr : Option String, ∃ call,
      js_panic tt th tx lc otr = [call] ∧ call.method = "error") ∧
    (js_panic tt th tx lc (some tr)).map (ConsoleCall.text conv) =
      ["== " ++ tt ++ " - " ++ toStr th ++ " Panic ==\n" ++ tx ++ "\n→ " ++ lc ++ tr] := by
  refine ⟨fun otr => ⟨_, rfl, rfl⟩, ?_⟩
  simp only [js_panic, ConsoleCall.text, Formatter, List.map_cons, List.map_nil,
    List.cons.injEq, and_true]
  apply String.ext
  simp [format, Piece.chars, isConvSpec, ofOption, toStr]

/-! ## Date lines (C3, C9) -/

/-- C3: the console does not take `%04d` and `%02d` as specifiers. For every year,
month and day `js_new_day` prints the format text with them left in, followed by the
three numbers unpadded; `js_new_day(2024, 1, 5)` prints `= %04d-%02d-%02d = 2024 1 5`,
not `= 2024-01-05 =`. -/
theorem js_new_day_prints_flags_verbatim (conv : Char → JSValue → String) :
    (∀ y m d : Nat, (js_new_day y m d).map (ConsoleCall.text conv) =
      ["= %04d-%02d-%02d = " ++ toString y ++ " " ++ toString m ++ " " ++ toString d]) ∧
    (js_new_day 2024 1 5).map (ConsoleCall.text conv) = ["= %04d-%02d-%02d = 2024 1 5"] ∧
    (js_new_day 2024 1 5).map (ConsoleCall.text conv) ≠ ["= 2024-01-05 ="] := by
  refine ⟨?_, rfl, ?_⟩
  · intro y m d
    simp only [js_new_day, ConsoleCall.text, Formatter, List.map_cons, List.map_nil,
      List.cons.injEq, and_true]
    apply String.ext
    simp [format, Piece.chars, isConvSpec, toStr]
  · intro hEq
    have hText : ["= %04d-%02d-%02d = 2024 1 5"] = ["= 2024-01-05 ="] := hEq
    revert hText
    decide

/-- C9: `js_header` makes one call to `console.log` with the gold style first, and
the title is printed as it stands, but the date is not: `%04d` and `%02d` stay in the
text and the three numbers follow it unpadded. `js_header("Title", 2024, 1, 5)` prints
`== Title - %04d-%02d-%02d == 2024 1 5`, not `== Title - 2024-01-05 ==`. -/
theorem js_header_prints_flags_verbatim (conv : Char → JSValue → String) :
    (∀ (t : String) (y m d : Nat), ∃ call,
      js_header t y m d = [call] ∧ call.method = "log" ∧
      (Formatter call.args).head? = some (Piece.sty (.str CY)) ∧
      call.text conv =
        "== " ++ t ++ " - %04d-%02d-%02d == " ++ toString y ++ " " ++ toString m ++ " "
          ++ toString d) ∧
    (js_header "Title" 2024 1 5).map (ConsoleCall.text conv) =
      ["== Title - %04d-%02d-%02d == 2024 1 5"] ∧
    (js_header "Title" 2024 1 5).map (ConsoleCall.text conv) ≠
      ["== Title - 2024-01-05 =="] := by
  refine ⟨?_, rfl, ?_⟩
  · intro t y m d
    refine ⟨_, rfl, rfl, rfl, ?_⟩
    simp only [ConsoleCall.text, Formatter]
    apply String.ext
    simp [format, Piece.chars, isConvSpec, toStr]
  · intro hEq
    have hText : ["== Title - %04d-%02d-%02d == 2024 1 5"] = ["== Title - 2024-01-05 =="] :=
      hEq
    revert hText
    decide

/-! ## Record lines (C4, C5, C7) -/

/-- C4: for every module name `md` and line number `li` below `2 ^ 53` (the integers a
Number holds exactly) the location `js_record` passes to the console, and the console
prints under the seagreen style, is `md` followed by `:` and the decimal digits of `li`
when `li` is nonzero, and exactly `md` when `li` is 0; line 0 gives no suffix and line
42 the suffix `:42`. -/
theorem js_record_location (md : String) (th : JSValue) (tx : String)
    (li lv h m s ms : Nat) (hlv : lv < 5) (_hli : li < 2 ^ 53) :
    ∃ call pre post,
      js_record md th tx li lv h m s ms = some [call] ∧
      call.args[9]? = some (.str (if li = 0 then md else md ++ ":" ++ toString li)) ∧
      Formatter call.args =
        pre ++ [Piece.sty (.str CG),
                Piece.sub (if li = 0 then md else md ++ ":" ++ toString li)] ++ post ∧
      location md 0 = md ∧ location md 42 = md ++ ":42" := by
  have hloc : location md li = if li = 0 then md else md ++ ":" ++ toString li := by
    unfold location
    by_cases h0 : li = 0 <;> simp [h0, toStr]
  have h42 : location md 42 = md ++ ":42" := by
    show md ++ ":" ++ "42" = md ++ ":42"
    rw [String.append_assoc]
    rfl
  rw [← hloc]
  interval_cases lv
  all_goals
    exact ⟨_,
      Piece.sty (.str (B ++ toStr (T_at (_ + 5)))) :: Piece.sub (toStr (T_at (_ + 10))) ::
        Piece.lit ' ' :: Piece.sty (.str CT) ::
        ("%02d:%02d:%02d.%03d ".toList.map Piece.lit ++
          [Piece.sty (.num h), Piece.sub (toString m), Piece.lit ' ',
           Piece.sty (.num s), Piece.sub (toString ms), Piece.lit '\n']),
      [Piece.extra (.str CV), Piece.extra th, Piece.extra (.str ""), Piece.extra (.str tx)],
      rfl, rfl, rfl, rfl, h42⟩

/-- Witness for C4 at module `main.rs`, line 42, level 0. -/
theorem js_record_location_witness :
    (0 : Nat) < 5 ∧ (42 : Nat) < 2 ^ 53 ∧
    ∃ call pre post,
      js_record "main.rs" (.str "T1") "hello" 42 0 5 3 9 7 = some [call] ∧
      call.args[9]? =
        some (.str (if 42 = 0 then "main.rs" else "main.rs" ++ ":" ++ toString 42)) ∧
      Formatter call.args =
        pre ++ [Piece.sty (.str CG),
                Piece.sub (if 42 = 0 then "main.rs" else "main.rs" ++ ":" ++ toString 42)]
          ++ post ∧
      location "main.rs" 0 = "main.rs" ∧ location "main.rs" 42 = "main.rs" ++ ":42" :=
  ⟨by decide, by norm_num,
    js_record_location "main.rs" (.str "T1") "hello" 42 0 5 3 9 7 (by decide) (by norm_num)⟩

/-- C5: the console does not take `%02d` and `%03d` as specifiers, so no clock field is
printed padded. At `js_record("main.rs", "T1", "hello", 42, 0, 5, 3, 9, 7)` the text
printed under the teal style is `%02d:%02d:%02d.%03d ` as it stands; the hour 5 and the
second 9 are consumed as style directives by the two `%c` after it, and the minute and
the millisecond are printed unpadded by the two `%s` after those. The same happens at
hour 23. -/
theorem js_record_clock_flags_verbatim (conv : Char → JSValue → String) :
    (∃ call, js_record "main.rs" (.str "T1") "hello" 42 0 5 3 9 7 = some [call] ∧
      ((Formatter call.args).drop 3).take 21 =
        Piece.sty (.str CT) :: "%02d:%02d:%02d.%03d ".toList.map Piece.lit ∧
      ((Formatter call.args).drop 24).take 6 =
        [Piece.sty (.num 5), Piece.sub "3", Piece.lit ' ',
         Piece.sty (.num 9), Piece.sub "7", Piece.lit '\n'] ∧
      call.text conv =
        "Error %02d:%02d:%02d.%03d 3 7\nmain.rs:42 font-weight:bold;color:palevioletred T1  hello") ∧
    (∃ call, js_record "main.rs" (.str "T1") "hello" 42 0 23 59 58 123 = some [call] ∧
      ((Formatter call.args).drop 3).take 21 =
        Piece.sty (.str CT) :: "%02d:%02d:%02d.%03d ".toList.map Piece.lit ∧
      ((Formatter call.args).drop 24).take 6 =
        [Piece.sty (.num 23), Piece.sub "59", Piece.lit ' ',
         Piece.sty (.num 58), Piece.sub "123", Piece.lit '\n']) :=
  ⟨⟨_, rfl, rfl, rfl, rfl⟩, ⟨_, rfl, rfl, rfl⟩⟩

/-- C7: for every level in 0..4 and all other arguments, the text `js_record` prints,
style directives removed, is the label, a blank, the text `%02d:%02d:%02d.%03d` as it
stands, a blank, the minute and the millisecond unpadded, a newline, the location, and
then the left-over arguments (the thread style, the thread, the empty style and the
message) each after a blank. At `js_record("app", 8, "started", 7, 2, 23, 59, 58, 123)`
that is not `Info 23:59:58.123 app:7 8` followed by a newline and `started`. -/
theorem js_record_text_not_as_laid_out (conv : Char → JSValue → String) :
    (∀ (lv : Fin 5) (md : String) (th : JSValue) (tx : String) (li h m s ms : Nat),
      (js_record md th tx li lv h m s ms).map (List.map (ConsoleCall.text conv)) =
        some [toStr (T_at (lv + 10)) ++ " %02d:%02d:%02d.%03d " ++ toString m ++ " "
          ++ toString ms ++ "\n" ++ location md li ++ " " ++ CV ++ " " ++ toStr th
          ++ "  " ++ tx]) ∧
    (js_record "app" (.num 8) "started" 7 2 23 59 58 123).map
        (List.map (ConsoleCall.text conv)) =
      some ["Info %02d:%02d:%02d.%03d 59 123\napp:7 font-weight:bold;color:palevioletred 8  started"] ∧
    (js_record "app" (.num 8) "started" 7 2 23 59 58 123).map
        (List.map (ConsoleCall.text conv)) ≠
      some ["Info 23:59:58.123 app:7 8\nstarted"] := by
  refine ⟨?_, rfl, ?_⟩
  · intro lv md th tx li h m s ms
    have hCV : CV = "font-weight:bold;color:palevioletred" := rfl
    rcases lv with ⟨lv, hlv⟩
    interval_cases lv
    all_goals
      simp only [js_record, T_at, T, consoleMethods, toStr, ConsoleCall.text, Formatter]
      simp only [List.getElem?_cons_succ, List.getElem?_cons_zero]
      simp
      apply String.ext
      simp [format, Piece.chars, isConvSpec, toStr, hCV, ConsoleCall.text, Formatter]
  · intro hEq
    have hText :
        some ["Info %02d:%02d:%02d.%03d 59 123\napp:7 font-weight:bold;color:palevioletred 8  started"]
          = some ["Info 23:59:58.123 app:7 8\nstarted"] := hEq
    revert hText
    decide

/-! ## Backtrace (C6) -/

/-- C6 as stated fails at the empty stack string: the truthiness test takes it for no
stack, and the result is the empty string, which does not start with the
`BACKTRACE:` label. -/
theorem js_trace_empty_stack_counterexample :
    js_trace (some "") = "" ∧ ¬ ∃ rest : String, js_trace (some "") = "\nBACKTRACE:\n" ++ rest := by
  refine ⟨rfl, ?_⟩
  rintro ⟨rest, hrest⟩
  have hlen := congrArg String.length hrest
  rw [String.length_append] at hlen
  have h0 : (js_trace (some "")).length = 0 := rfl
  have h12 : "\nBACKTRACE:\n".length = 12 := rfl
  omega

/-- C6, amended: `js_trace` is total; with no stack it returns the empty string, with
the empty stack string it returns the empty string too, and with a non-empty stack
string `s` it returns `"\nBACKTRACE:\n"` followed by `s` as it stands. -/
theorem js_trace_spec (s : String) (hs : s ≠ "") :
    js_trace none = "" ∧ js_trace (some "") = "" ∧
      js_trace (some s) = "\nBACKTRACE:\n" ++ s := by
  refine ⟨rfl, rfl, ?_⟩
  simp [js_trace, hs]

/-- Witness for C6 at a one-frame stack. -/
theorem js_trace_spec_witness :
    "Error\n    at js_trace" ≠ "" ∧
    (js_trace none = "" ∧ js_trace (some "") = "" ∧
      js_trace (some "Error\n    at js_trace") = "\nBACKTRACE:\n" ++ "Error\n    at js_trace") :=
  ⟨by decide, js_trace_spec "Error\n    at js_trace" (by decide)⟩

/-! ## Arguments against placeholders (C10) -/

/-- C10: in each of `js_header`, `js_new_day`, `js_record` (level in 0..4) and
`js_panic`, reading the format string printf-style, the number of placeholders equals
the number of arguments after the format string (5, 4, 13 and 11), and pairing them in
order puts a style directive string on every `%c`, the text value of that position on
every `%s` and a numeric field on every `%0Nd`. -/
theorem console_calls_match_placeholders (t : String) (y mo d : Nat)
    (md : String) (th : JSValue) (tx : String) (li lv h mi s ms : Nat)
    (tt : String) (pth : JSValue) (ptx lc : String) (tr : Option String) (hlv : lv < 5) :
    (∃ method fmt rest, js_header t y mo d = [⟨method, .str fmt :: rest⟩] ∧
      (placeholders fmt.toList).length = 5 ∧ rest.length = 5 ∧
      List.zip (placeholders fmt.toList) rest =
        [(.style, .str CY), (.text, .str t), (.padded 4, .num y), (.padded 2, .num mo),
         (.padded 2, .num d)] ∧
      (List.zipWith Placeholder.fits (placeholders fmt.toList) rest).all id = true) ∧
    (∃ method fmt rest, js_new_day y mo d = [⟨method, .str fmt :: rest⟩] ∧
      (placeholders fmt.toList).length = 4 ∧ rest.length = 4 ∧
      List.zip (placeholders fmt.toList) rest =
        [(.style, .str CY), (.padded 4, .num y), (.padded 2, .num mo), (.padded 2, .num d)] ∧
      (List.zipWith Placeholder.fits (placeholders fmt.toList) rest).all id = true) ∧
    (∃ method fmt rest,
      js_record md th tx li lv h mi s ms = some [⟨method, .str fmt :: rest⟩] ∧
      (placeholders fmt.toList).length = 13 ∧ rest.length = 13 ∧
      List.zip (placeholders fmt.toList) rest =
        [(.style, .str (B ++ toStr (T_at (lv + 5)))), (.text, T_at (lv + 10)),
         (.style, .str CT), (.padded 2, .num h), (.padded 2, .num mi), (.padded 2, .num s),
         (.padded 3, .num ms), (.style, .str CG),
         (.text, .str (if li = 0 then md else md ++ ":" ++ toString li)),
         (.style, .str CV), (.text, th), (.style, .str ""), (.text, .str tx)] ∧
      (List.zipWith Placeholder.fits (placeholders fmt.toList) rest).all id = true) ∧
    (∃ method fmt rest, js_panic tt pth ptx lc tr = [⟨method, .str fmt :: rest⟩] ∧
      (placeholders fmt.toList).length = 11 ∧ rest.length = 11 ∧
      List.zip (placeholders fmt.toList) rest =
        [(.style, .str CF), (.text, .str tt), (.style, .str CV), (.text, pth),
         (.style, .str CF), (.style, .str ""), (.text, .str ptx), (.style, .str CG),
         (.text, .str lc), (.style, .str ""), (.text, ofOption tr)] ∧
      (List.zipWith Placeholder.fits (placeholders fmt.toList) rest).all id = true) := by
  have hloc : location md li = if li = 0 then md else md ++ ":" ++ toString li := by
    unfold location
    by_cases h0 : li = 0 <;> simp [h0, toStr]
  rw [← hloc]
  refine ⟨⟨_, _, _, rfl, rfl, rfl, rfl, rfl⟩, ⟨_, _, _, rfl, rfl, rfl, rfl, rfl⟩, ?_,
    ⟨_, _, _, rfl, rfl, rfl, rfl, rfl⟩⟩
  interval_cases lv
  all_goals exact ⟨_, _, _, rfl, rfl, rfl, rfl, rfl⟩

/-- Witness for C10 at one concrete call of each function, `js_record` at level 2. -/
theorem console_calls_match_placeholders_witness :
    (2 : Nat) < 5 ∧
    ((∃ method fmt rest, js_header "Title" 2024 1 5 = [⟨method, .str fmt :: rest⟩] ∧
      (placeholders fmt.toList).length = 5 ∧ rest.length = 5 ∧
      List.zip (placeholders fmt.toList) rest =
        [(.style, .str CY), (.text, .str "Title"), (.padded 4, .num 2024), (.padded 2, .num 1),
         (.padded 2, .num 5)] ∧
      (List.zipWith Placeholder.fits (placeholders fmt.toList) rest).all id = true) ∧
    (∃ method fmt rest, js_new_day 2024 1 5 = [⟨method, .str fmt :: rest⟩] ∧
      (placeholders fmt.toList).length = 4 ∧ rest.length = 4 ∧
      List.zip (placeholders fmt.toList) rest =
        [(.style, .str CY), (.padded 4, .num 2024), (.padded 2, .num 1), (.padded 2, .num 5)] ∧
      (List.zipWith Placeholder.fits (placeholders fmt.toList) rest).all id = true) ∧
    (∃ method fmt rest,
      js_record "app" (.num 8) "started" 7 2 23 59 58 123 = some [⟨method, .str fmt :: rest⟩] ∧
      (placeholders fmt.toList).length = 13 ∧ rest.length = 13 ∧
      List.zip (placeholders fmt.toList) rest =
        [(.style, .str (B ++ toStr (T_at (2 + 5)))), (.text, T_at (2 + 10)),
         (.style, .str CT), (.padded 2, .num 23), (.padded 2, .num 59), (.padded 2, .num 58),
         (.padded 3, .num 123), (.style, .str CG),
         (.text, .str (if 7 = 0 then "app" else "app" ++ ":" ++ toString 7)),
         (.style, .str CV), (.text, .num 8), (.style, .str ""), (.text, .str "started")] ∧
      (List.zipWith Placeholder.fits (placeholders fmt.toList) rest).all id = true) ∧
    (∃ method fmt rest, js_panic "Title" (.str "T1") "boom" "file.js:10" none = [⟨method, .str fmt :: rest⟩] ∧
      (placeholders fmt.toList).length = 11 ∧ rest.length = 11 ∧
      List.zip (placeholders fmt.toList) rest =
        [(.style, .str CF), (.text, .str "Title"), (.style, .str CV), (.text, .str "T1"),
         (.style, .str CF), (.style, .str ""), (.text, .str "boom"), (.style, .str CG),
         (.text, .str "file.js:10"), (.style, .str ""), (.text, ofOption none)] ∧
      (List.zipWith Placeholder.fits (placeholders fmt.toList) rest).all id = true)) :=
  ⟨by decide,
    console_calls_match_placeholders "Title" 2024 1 5 "app" (.num 8) "started" 7 2 23
      59 58 123 "Title" (.str "T1") "boom" "file.js:10" none (by decide)⟩

end SysWeb
